import Mathlib

/-!
Verification development for the pigeon repository: a queue-gated admission
and delayed-dispatch controller for inbound SMS messages.  The definitions
below are shallow embeddings of the Python source files
(`message_processor.py`, `mongodb_service.py`, `rabbitmq_service.py`,
`gpt_agent.py`, `grok_client.py`, `main.py`); external collaborators
(broker, store, Twilio, model APIs) are modelled by explicit environment
records giving each call site its outcome.
-/

namespace Pigeon

/-! ### Python string primitives used by the source -/

/-- Whitespace characters of Python's `\s` class and of `str.strip()`
(ASCII part: space, tab, newline, carriage return, vertical tab, form feed). -/
def isPyWs (c : Char) : Bool :=
  c == ' ' || c == '\t' || c == '\n' || c == '\r' || c == '\x0b' || c == '\x0c'

/-- Model of Python `str.strip()`: drop leading and trailing whitespace. -/
def pyStrip (s : String) : String :=
  String.mk (((s.data.dropWhile isPyWs).reverse.dropWhile isPyWs).reverse)

/-- Model of Python `str.lower()` (ASCII letters suffice for the texts involved). -/
def pyLower (s : String) : String :=
  String.mk (s.data.map Char.toLower)

/-- First index at which the pattern `pat` occurs as a contiguous sublist of `cs`. -/
def findIdx (cs pat : List Char) : Option Nat :=
  match cs with
  | [] => if pat.isEmpty then some 0 else none
  | _ :: rest =>
    if pat.isPrefixOf cs then some 0
    else (findIdx rest pat).map (· + 1)

/-- First index `≥ start` at which `pat` occurs in `cs`. -/
def findFrom (cs pat : List Char) (start : Nat) : Option Nat :=
  (findIdx (cs.drop start) pat).map (· + start)

/-- Model of Python's `in` test on strings (substring containment). -/
def containsSub (cs pat : List Char) : Bool :=
  (findIdx cs pat).isSome

/-! ### JSON values and a model of `json.loads`

The parser below models the fragment of Python's `json.loads` exercised by
the repository: objects, arrays, strings (common escapes; `\uXXXX` escapes
and the nonstandard `NaN`/`Infinity` literals are not modelled), booleans,
null, and numbers.  Number tokens are validated against the JSON grammar and
kept as their lexemes, since the source never does arithmetic on them. -/

inductive Json where
  | str (s : String)
  | num (lexeme : String)
  | bool (b : Bool)
  | null
  | arr (xs : List Json)
  | obj (kvs : List (String × Json))
deriving Repr

/-- JSON insignificant whitespace. -/
def skipWs (cs : List Char) : List Char :=
  cs.dropWhile (fun c => c == ' ' || c == '\t' || c == '\n' || c == '\r')

/-- Parse the body of a JSON string literal (the opening quote already
consumed), returning the decoded characters (reversed accumulator) and the
rest of the input.  Raw control characters are rejected, as `json.loads`
does in its default strict mode. -/
def parseStringAux : List Char → List Char → Option (List Char × List Char)
  | [], _ => none
  | '"' :: rest, acc => some (acc, rest)
  | '\\' :: e :: rest, acc =>
    match e with
    | '"' => parseStringAux rest ('"' :: acc)
    | '\\' => parseStringAux rest ('\\' :: acc)
    | '/' => parseStringAux rest ('/' :: acc)
    | 'n' => parseStringAux rest ('\n' :: acc)
    | 't' => parseStringAux rest ('\t' :: acc)
    | 'r' => parseStringAux rest ('\r' :: acc)
    | 'b' => parseStringAux rest ('\x08' :: acc)
    | 'f' => parseStringAux rest ('\x0c' :: acc)
    | _ => none
  | c :: rest, acc =>
    if c.toNat < 32 then none else parseStringAux rest (c :: acc)

/-- Parse a JSON string literal after its opening quote. -/
def parseStringLit (cs : List Char) : Option (String × List Char) :=
  (parseStringAux cs []).map (fun p => (String.mk p.1.reverse, p.2))

/-- Split a leading run of decimal digits. -/
def takeDigits (cs : List Char) : List Char × List Char :=
  (cs.takeWhile Char.isDigit, cs.dropWhile Char.isDigit)

/-- Parse a JSON number token (`-? int frac? exp?`), returning its lexeme. -/
def parseNumber (cs : List Char) : Option (String × List Char) :=
  let (sign, cs1) := match cs with
    | '-' :: r => (['-'], r)
    | _ => (([] : List Char), cs)
  match cs1 with
  | [] => none
  | c :: _ =>
    if ¬ c.isDigit then none
    else
      let (intPart, rest1) :=
        match cs1 with
        | '0' :: r => (['0'], r)
        | _ => takeDigits cs1
      let (fracPart, rest2) :=
        match rest1 with
        | '.' :: r =>
          let (ds, r2) := takeDigits r
          if ds.isEmpty then (none, rest1) else (some ('.' :: ds), r2)
        | _ => (none, rest1)
      match fracPart, rest1 with
      | none, '.' :: _ => none
      | _, _ =>
        let (expPart, rest3) :=
          match rest2 with
          | 'e' :: r => (some ('e' :: []), r)
          | 'E' :: r => (some ('E' :: []), r)
          | _ => (none, rest2)
        match expPart with
        | none => some (String.mk (sign ++ intPart ++ (fracPart.getD []) ), rest2)
        | some ec =>
          let (esign, rest4) := match rest3 with
            | '+' :: r => (['+'], r)
            | '-' :: r => (['-'], r)
            | _ => (([] : List Char), rest3)
          let (eds, rest5) := takeDigits rest4
          if eds.isEmpty then none
          else some (String.mk (sign ++ intPart ++ (fracPart.getD []) ++ ec ++ esign ++ eds), rest5)

mutual

/-- Fuel-indexed recursive-descent JSON value parser. -/
def parseValue : Nat → List Char → Option (Json × List Char)
  | 0, _ => none
  | fuel + 1, cs0 =>
    match skipWs cs0 with
    | '{' :: rest =>
      (match skipWs rest with
       | '}' :: r2 => some (Json.obj [], r2)
       | r1 =>
         match parseMembers fuel r1 with
         | some (kvs, r2) => some (Json.obj kvs, r2)
         | none => none)
    | '[' :: rest =>
      (match skipWs rest with
       | ']' :: r2 => some (Json.arr [], r2)
       | r1 =>
         match parseElements fuel r1 with
         | some (xs, r2) => some (Json.arr xs, r2)
         | none => none)
    | '"' :: rest =>
      (match parseStringLit rest with
       | some (s, r) => some (Json.str s, r)
       | none => none)
    | 't' :: 'r' :: 'u' :: 'e' :: r => some (Json.bool true, r)
    | 'f' :: 'a' :: 'l' :: 's' :: 'e' :: r => some (Json.bool false, r)
    | 'n' :: 'u' :: 'l' :: 'l' :: r => some (Json.null, r)
    | cs =>
      match parseNumber cs with
      | some (lex, r) => some (Json.num lex, r)
      | none => none

/-- Parse the members of a JSON object after its opening brace. -/
def parseMembers : Nat → List Char → Option (List (String × Json) × List Char)
  | 0, _ => none
  | fuel + 1, cs =>
    match skipWs cs with
    | '"' :: rest =>
      (match parseStringLit rest with
       | some (k, r1) =>
         (match skipWs r1 with
          | ':' :: r2 =>
            (match parseValue fuel r2 with
             | some (v, r3) =>
               (match skipWs r3 with
                | ',' :: r4 =>
                  (match parseMembers fuel r4 with
                   | some (kvs, r5) => some ((k, v) :: kvs, r5)
                   | none => none)
                | '}' :: r4 => some ([(k, v)], r4)
                | _ => none)
             | none => none)
          | _ => none)
       | none => none)
    | _ => none

/-- Parse the elements of a JSON array after its opening bracket. -/
def parseElements : Nat → List Char → Option (List Json × List Char)
  | 0, _ => none
  | fuel + 1, cs =>
    match parseValue fuel cs with
    | some (v, r1) =>
      (match skipWs r1 with
       | ',' :: r2 =>
         (match parseElements fuel r2 with
          | some (xs, r3) => some (v :: xs, r3)
          | none => none)
       | ']' :: r2 => some ([v], r2)
       | _ => none)
    | none => none

end

/-- Model of `json.loads`: parse one value, require only whitespace after it,
return `none` where the Python call would raise `JSONDecodeError`. -/
def json_loads (s : String) : Option Json :=
  match parseValue (s.length + 1) s.data with
  | some (v, rest) => if (skipWs rest).isEmpty then some v else none
  | none => none

/-! ### Models of the two regular expressions of
`ChatAgent.analyze_time_sensitive_conversation` (gpt_agent.py) -/

/-- The literal `"delay"` (with its quotes), as it appears in both regexes. -/
def delayLit : List Char := '"' :: 'd' :: 'e' :: 'l' :: 'a' :: 'y' :: '"' :: []

/-- Model of `re.search(r'\{.*?"delay".*?\}', text, re.DOTALL)`:
the leftmost match starts at the first `{`; its lazy quantifiers take the
first occurrence of `"delay"` after that brace and then the first `}` after
that occurrence; the whole match (brace to brace, inclusive) is returned.
If the first `{` has no admissible `"delay"`/`}` after it, no later start
does either, so the search fails. -/
def fragSearch (cs : List Char) : Option (List Char) :=
  match findIdx cs ('{' :: []) with
  | none => none
  | some i0 =>
    match findFrom cs delayLit (i0 + 1) with
    | none => none
    | some d =>
      match findFrom cs ('}' :: []) (d + 7) with
      | none => none
      | some b => some ((cs.drop i0).take (b - i0 + 1))

/-- Attempt to match `"delay":\s*"([^"]*)"` at the head of `cs`,
returning the captured group. -/
def matchLabelAt (cs : List Char) : Option String :=
  let lbl : List Char := '"' :: 'd' :: 'e' :: 'l' :: 'a' :: 'y' :: '"' :: ':' :: []
  if lbl.isPrefixOf cs then
    match (cs.drop 8).dropWhile isPyWs with
    | '"' :: tail =>
      let captured := tail.takeWhile (fun c => c != '"')
      match tail.dropWhile (fun c => c != '"') with
      | '"' :: _ => some (String.mk captured)
      | _ => none
    | _ => none
  else none

/-- Model of `re.search(r'"delay":\s*"([^"]*)"', text)`: the captured group
of the leftmost position where the whole pattern matches. -/
def labeledScan : List Char → Option String
  | [] => none
  | c :: rest =>
    match matchLabelAt (c :: rest) with
    | some s => some s
    | none => labeledScan rest

/-! ### The decision-extraction block of
`ChatAgent.analyze_time_sensitive_conversation` (gpt_agent.py lines 256-284).

The source first searches the response text for the smallest `{...}`
fragment containing `"delay"` and, only when no such fragment is found,
attempts `json.loads` on the entire text; when the attempted parse raises
`JSONDecodeError` it falls back to a permissive labeled-value scan. -/

/-- The `except json.JSONDecodeError` fallback: default `delay_value = "0"`,
then, if the lowered text contains `delay`, try the labeled-value regex. -/
def labeled_fallback (t : String) : Json :=
  let delay_value :=
    if containsSub (pyLower t).data ('d' :: 'e' :: 'l' :: 'a' :: 'y' :: []) then
      (labeledScan t.data).getD ("0")
    else "0"
  Json.obj [("delay", Json.str delay_value)]

/-- Embedding of the extraction performed on the (stripped) model response
text: fragment regex first; `json.loads` on the whole text only when no
fragment matched; the labeled fallback on parse failure. -/
def extract_delay (response_content : String) : Json :=
  match fragSearch response_content.data with
  | some json_str =>
    (match json_loads (String.mk json_str) with
     | some delay_data => delay_data
     | none => labeled_fallback response_content)
  | none =>
    match json_loads response_content with
    | some delay_data => delay_data
    | none => labeled_fallback response_content

/-- Modelled from the spec (§4.3 extraction policy, for comparison with
`extract_delay`): strict structured parse of the entire output first, the
smallest structured fragment second, the permissive labeled scan third. -/
def extract_delay_specOrder (t : String) : Json :=
  match json_loads t with
  | some delay_data => delay_data
  | none =>
    match fragSearch t.data with
    | some json_str =>
      (match json_loads (String.mk json_str) with
       | some delay_data => delay_data
       | none => labeled_fallback t)
    | none => labeled_fallback t

/-- Model of `gpt_response.get("delay", "0") if isinstance(gpt_response, dict)
else "0"` followed by the uses `delay_value != "0"` / `delay_value.strip()`
(main.py lines 151-152): `none` marks the case where `delay_value` is not a
string, so `.strip()` raises `AttributeError`.  Python dicts built by
`json.loads` keep the last occurrence of a duplicated key, hence the
reversed association-list lookup. -/
def delay_value_of (gpt_response : Json) : Option String :=
  match gpt_response with
  | Json.obj kvs =>
    (match (kvs.reverse).lookup ("delay") with
     | some (Json.str s) => some s
     | some _ => none
     | none => some ("0"))
  | _ => some ("0")

/-! ### grok_client.py : `get_grok_response` -/

/-- Outcomes of the collaborators of `get_grok_response`: the `XAI_API_KEY`
environment variable, and the Grok chat-completion call.  `Except.error`
models the call raising; `ok none` models a completion whose
`message.content` is `None` (so `.strip()` raises `AttributeError`, caught
by the same handler); `ok (some c)` a completion with content `c`.
`raised` covers client construction and the chat-completion call.  -/
inductive CallOutcome where
  | ok (content : Option String)
  | raised (msg : String)
deriving Repr, DecidableEq

structure GrokEnv where
  api_key : Option String
  call_result : CallOutcome
deriving Repr, DecidableEq

/-- Python truthiness of the `api_key` value (`if not api_key`): falsy when
the variable is absent or the empty string. -/
def pyTruthyKey (o : Option String) : Bool :=
  match o with
  | none => false
  | some s => s != ""

def grok_config_error_msg : String :=
  "Sorry, Grok is not configured properly. Please contact support."

def grok_failure_msg : String :=
  "Sorry, I\x27m having trouble processing your message right now. Please try again later."

/-- Embedding of `get_grok_response` (grok_client.py lines 11-58). -/
def get_grok_response (env : GrokEnv) (user_message : String) : String :=
  if pyTruthyKey env.api_key = false then grok_config_error_msg
  else
    match env.call_result with
    | CallOutcome.ok (some content) => pyStrip content
    | CallOutcome.ok none => grok_failure_msg
    | CallOutcome.raised _ => grok_failure_msg

/-! ### mongodb_service.py : the Durable Log -/

/-- A stored SMS document, as built by `MongoDBService.insert_sms_message`
(`_id` and the string serialization of the timestamp are elided; the
timestamp is modelled as a strictly increasing insertion counter, matching
`datetime.utcnow()` under a monotonic clock). -/
structure SmsDoc where
  from_number : String
  to_number : String
  body : String
  message_sid : Option String
  account_sid : Option String
  timestamp : Nat
  processed : Bool
deriving Repr, DecidableEq

/-- State of the `sms_messages` collection: documents in insertion order
plus the timestamp clock. -/
structure MongoState where
  docs : List SmsDoc
  clock : Nat
deriving Repr, DecidableEq

def mongoEmpty : MongoState := { docs := [], clock := 0 }

/-- Successful effect of `insert_sms_message(from_number, to_number, body)`
(mongodb_service.py lines 47-83; `message_sid`/`account_sid` default `None`,
`processed` is set `True`). -/
def insert_sms_message (st : MongoState) (f t b : String) : MongoState :=
  { docs := st.docs ++ [{ from_number := f, to_number := t, body := b,
                          message_sid := none, account_sid := none,
                          timestamp := st.clock, processed := true }],
    clock := st.clock + 1 }

/-- Descending insertion by timestamp, used to model the Mongo sort. -/
def insertDesc (d : SmsDoc) : List SmsDoc → List SmsDoc
  | [] => [d]
  | e :: es => if e.timestamp ≤ d.timestamp then d :: e :: es else e :: insertDesc d es

/-- Model of `collection.find().sort("timestamp", -1)`: a descending sort on
the timestamp key (on the strictly increasing timestamps produced by the
insert clock, every descending sort yields this same list). -/
def sortTsDesc : List SmsDoc → List SmsDoc
  | [] => []
  | d :: ds => insertDesc d (sortTsDesc ds)

/-- Embedding of `MongoDBService.get_all_messages` (mongodb_service.py lines
85-113): all documents sorted by timestamp, newest first. -/
def get_all_messages (st : MongoState) : List SmsDoc :=
  sortTsDesc st.docs

/-- Embedding of `MongoDBService.get_message_count` (mongodb_service.py
lines 148-167): `count_documents({})`. -/
def get_message_count (st : MongoState) : Nat :=
  st.docs.length

/-! ### message_processor.py : the Admission Controller -/

/-- Inbound message fields passed to `process_message_if_queue_empty`. -/
structure MsgInput where
  from_number : String
  to_number : String
  body : String
deriving Repr, DecidableEq

/-- The document that a `Claimed` admission of `inp` appends when the store
clock reads `ts`. -/
def recordOf (inp : MsgInput) (ts : Nat) : SmsDoc :=
  { from_number := inp.from_number, to_number := inp.to_number, body := inp.body,
    message_sid := none, account_sid := none, timestamp := ts, processed := true }

/-- Outcomes of the external collaborators consulted by
`process_message_if_queue_empty`, one field per call site:
`is_empty` is the result of `rabbitmq_service.is_queue_empty` (`none` =
error), `queue_count` the result of the second, independent
`get_queue_message_count` query on the skip path (`none` = error),
`mongo_connect` and `insert_ok` the boolean results of
`mongodb_service.connect` / `insert_sms_message`, and `read_fails` /
`count_fails` whether `get_all_messages` / `count_documents` hit the
internal error handlers (which return `[]` / `0`). -/
structure ProcEnv where
  is_empty : Option Bool
  queue_count : Option Nat
  mongo_connect : Bool
  insert_ok : Bool
  read_fails : Bool
  count_fails : Bool
deriving Repr, DecidableEq

/-- The placeholder analysis response built by `send_gpt`
(message_processor.py lines 9-21). -/
structure GptResponse where
  status : String
  summary : String
  details : String
deriving Repr, DecidableEq

/-- Embedding of `send_gpt`: the `json.dumps`/`json.loads` round trip of the
message list is elided (dumps always yields valid JSON, which loads inverts),
so the function receives the document list directly. -/
def send_gpt (messages : List SmsDoc) : GptResponse :=
  { status := "success",
    summary := "Placeholder analysis for " ++ toString messages.length ++ " messages.",
    details := "Implement your \x27Ganesh function\x27 logic here." }

/-- The result dictionary of `process_message_if_queue_empty`; only the keys
present on the corresponding Python path are `some`. -/
structure ProcResult where
  status : String
  message : String
  total_messages_in_db : Option Nat
  gpt_response : Option GptResponse
deriving Repr, DecidableEq

/-- Operations issued to the Admission Queue (rabbitmq_service.py): both
depth readers first redeclare the queue, then read the counter; `publish`
and `purge` are included so that absence of queue mutation is expressible. -/
inductive QOp where
  | declareQueue
  | depthQuery
  | publish
  | purge
deriving Repr, DecidableEq

/-- Python `str(...)` of an `Optional[int]` inside an f-string. -/
def pyShowOptNat (o : Option Nat) : String :=
  match o with
  | none => "None"
  | some n => toString n

/-- Full output of one `process_message_if_queue_empty` call: the returned
dictionary, the store state after the call, and the queue operations issued. -/
structure ProcOut where
  result : ProcResult
  state : MongoState
  qops : List QOp
deriving Repr, DecidableEq

def SMS_QUEUE_NAME : String := "pigeon_queue"

/-- Embedding of `process_message_if_queue_empty` (message_processor.py
lines 44-101).  Every collaborator call's outcome comes from `env`; the
store state is threaded explicitly.  The final `mongodb_service.disconnect`
has no effect on the modelled state. -/
def process_message_if_queue_empty (env : ProcEnv) (inp : MsgInput)
    (st : MongoState) (queue_name : String) : ProcOut :=
  match env.is_empty with
  | none =>
    { result := { status := "error", message := "Failed to check queue status",
                  total_messages_in_db := none, gpt_response := none },
      state := st, qops := [QOp.declareQueue, QOp.depthQuery] }
  | some false =>
    { result := { status := "skipped",
                  message := "Queue \x27" ++ queue_name ++ "\x27 is not empty. Contains "
                    ++ pyShowOptNat env.queue_count ++ " messages. Message not processed.",
                  total_messages_in_db := none, gpt_response := none },
      state := st,
      qops := [QOp.declareQueue, QOp.depthQuery, QOp.declareQueue, QOp.depthQuery] }
  | some true =>
    if env.mongo_connect = false then
      { result := { status := "error", message := "Failed to connect to MongoDB",
                    total_messages_in_db := none, gpt_response := none },
        state := st, qops := [QOp.declareQueue, QOp.depthQuery] }
    else if env.insert_ok = false then
      { result := { status := "error", message := "Failed to store message in MongoDB",
                    total_messages_in_db := none, gpt_response := none },
        state := st, qops := [QOp.declareQueue, QOp.depthQuery] }
    else
      let st1 := insert_sms_message st inp.from_number inp.to_number inp.body
      let messages := if env.read_fails then [] else get_all_messages st1
      let total := if env.count_fails then 0 else get_message_count st1
      let gpt := send_gpt messages
      { result := { status := "success",
                    message := "Queue was empty. Message added to database and sent to GPT.",
                    total_messages_in_db := some total, gpt_response := some gpt },
        state := st1, qops := [QOp.declareQueue, QOp.depthQuery] }

/-- The all-success collaborator environment (queue empty, store healthy). -/
def goodEnv : ProcEnv :=
  { is_empty := some true, queue_count := none, mongo_connect := true,
    insert_ok := true, read_fails := false, count_fails := false }

/-- N successive admissions under `goodEnv` (each one a `Claimed` outcome). -/
def admit_sequence (inps : List MsgInput) (st : MongoState) : MongoState :=
  match inps with
  | [] => st
  | i :: rest => admit_sequence rest (process_message_if_queue_empty goodEnv i st SMS_QUEUE_NAME).state

/-- The records that admitting `inps` appends when the clock starts at `c`. -/
def mkRecords : List MsgInput → Nat → List SmsDoc
  | [], _ => []
  | i :: rest, c => recordOf i c :: mkRecords rest (c + 1)

/-! ### main.py : `handle_message` success branch and the
Deferred Dispatch Scheduler (`send_delayed_message`) -/

/-- Events of the success branch of `handle_message` (main.py lines
145-170), in program order. -/
inductive HEvent where
  | publishAttempt (ok : Bool)
  | armTimer
  | sendWhatsAppNow (ok : Bool)
deriving Repr, DecidableEq

/-- Outcomes of the collaborator calls made on the success branch:
`publish_ok` is the boolean result of `rabbitmq_service.publish_message`
(it catches its own exceptions), `whatsapp_ok` whether the immediate
WhatsApp `client.messages.create` succeeds. -/
structure HandleEnv where
  publish_ok : Bool
  whatsapp_ok : Bool
deriving Repr, DecidableEq

/-- Embedding of the success branch of `handle_message`: extract
`delay_value` from the analysis response; when it is neither `"0"` nor
blank, publish the raw message to the Admission Queue and only then arm the
deferred-dispatch task; otherwise forward to the WhatsApp number and send no
deferred dispatch.  A non-string `delay` value (where `.strip()` raises,
caught by the surrounding handler) produces no events at all. -/
def handle_success_branch (env : HandleEnv) (gpt_response : Json) : List HEvent :=
  match delay_value_of gpt_response with
  | none => []
  | some delay_value =>
    if delay_value ≠ "0" ∧ pyStrip delay_value ≠ "" then
      [HEvent.publishAttempt env.publish_ok, HEvent.armTimer]
    else
      [HEvent.sendWhatsAppNow env.whatsapp_ok]

/-- Events of one deferred-dispatch run (`send_delayed_message`), in program
order.  `sendSMS` is the primary Responder invocation
(`client.messages.create` back to the original sender, carrying the Grok
reply text); `purgeAttempt` the final `rabbitmq_service.purge_queue`. -/
inductive DEvent where
  | sleep (seconds : Nat)
  | grokCall
  | sendSMS (body : String) (ok : Bool)
  | sendWhatsApp (ok : Bool)
  | purgeAttempt (ok : Bool)
deriving Repr, DecidableEq

/-- Collaborator outcomes for one deferred-dispatch run: the Grok
environment, whether the primary `client.messages.create` raises, whether
the WhatsApp copy raises (caught by its own inner handler), and whether
`purge_queue` succeeds (it catches its own exceptions and returns `False`
without purging otherwise). -/
structure DelayedEnv where
  grok : GrokEnv
  send_raises : Bool
  whatsapp_raises : Bool
  purge_ok : Bool
deriving Repr, DecidableEq

/-- Embedding of `send_delayed_message` (main.py lines 74-110): sleep a
constant 45 seconds, get the Grok reply, send it to the original sender,
copy it to WhatsApp, then purge the Admission Queue.  The purge statement
sits inside the same `try` as the primary send, after it: when that send
raises, the outer `except` catches the error and the purge is never
reached, so the queue depth is left unchanged. -/
def send_delayed_message (env : DelayedEnv)
    (to_number from_number original_message : String) (depth : Nat) :
    Nat × List DEvent :=
  let grok_response := get_grok_response env.grok original_message
  if env.send_raises then
    (depth, [DEvent.sleep 45, DEvent.grokCall, DEvent.sendSMS grok_response false])
  else
    let evs := [DEvent.sleep 45, DEvent.grokCall, DEvent.sendSMS grok_response true,
                DEvent.sendWhatsApp (!env.whatsapp_raises)]
    if env.purge_ok then (0, evs ++ [DEvent.purgeAttempt true])
    else (depth, evs ++ [DEvent.purgeAttempt false])

/-- The deferred run armed by the nonzero-delay branch of `handle_message`:
`asyncio.create_task(send_delayed_message(From, To, Body))` (main.py line
166).  The extracted `delay_value` governs only the guard around this call;
it is not passed to the task, which is the same for every delay value. -/
def deferral_scheduled_task (delay_value : String) (env : DelayedEnv)
    (From To Body : String) (depth : Nat) : Nat × List DEvent :=
  send_delayed_message env From To Body depth

/-- The sleep durations occurring in a run trace. -/
def sleepsOf (evs : List DEvent) : List Nat :=
  evs.filterMap (fun e => match e with | DEvent.sleep n => some n | _ => none)

/-- The number of primary Responder invocations in a run trace. -/
def primarySendCount (evs : List DEvent) : Nat :=
  (evs.filter (fun e => match e with | DEvent.sendSMS _ _ => true | _ => false)).length

/-- Whether an event is the queue purge. -/
def isPurgeEvent (e : DEvent) : Bool :=
  match e with
  | DEvent.purgeAttempt _ => true
  | _ => false

/-! ### Concrete instances used by witnesses and counterexamples -/

/-- A deferred-dispatch environment whose primary Twilio send raises. -/
def c1_env : DelayedEnv :=
  { grok := { api_key := some ("k"), call_result := CallOutcome.ok (some ("On my way!")) },
    send_raises := true, whatsapp_raises := false, purge_ok := true }

/-- A fully healthy deferred-dispatch environment. -/
def c2_env : DelayedEnv :=
  { grok := { api_key := some ("k"), call_result := CallOutcome.ok (some ("hi")) },
    send_raises := false, whatsapp_raises := false, purge_ok := true }

def msgA : MsgInput := { from_number := "A", to_number := "B", body := "first" }

def msgB : MsgInput := { from_number := "A", to_number := "B", body := "second" }

/-- Analyzer output whose whole text is valid JSON while the lazy fragment
regex captures an unbalanced prefix: the two extraction orders disagree. -/
def c4_input : String := "\x7b\"outer\": \x7b\"delay\": \"2\"\x7d, \"delay\": \"1\"\x7d"

/-- Analyzer output with a parseable fragment amid prose. -/
def c4_witness_input : String := "\x7b\"delay\": \"5\"\x7d and prose"

/-- A collaborator environment observing a non-empty queue at the gate and
failing the second depth query. -/
def c9_env : ProcEnv :=
  { is_empty := some false, queue_count := none, mongo_connect := true,
    insert_ok := true, read_fails := false, count_fails := false }

/-- A collaborator environment observing a non-empty queue with depth 3. -/
def skipEnv : ProcEnv :=
  { is_empty := some false, queue_count := some 3, mongo_connect := true,
    insert_ok := true, read_fails := false, count_fails := false }

/-- A collaborator environment whose store connection fails on the claim path. -/
def failConnectEnv : ProcEnv :=
  { is_empty := some true, queue_count := none, mongo_connect := false,
    insert_ok := true, read_fails := false, count_fails := false }

def hEnv : HandleEnv := { publish_ok := true, whatsapp_ok := true }

/-- A Grok environment whose model call succeeds with whitespace-only content. -/
def c10_env_ws : GrokEnv :=
  { api_key := some ("k"), call_result := CallOutcome.ok (some ("   ")) }

/-- A Grok environment with the API key missing. -/
def c10_env_missing : GrokEnv :=
  { api_key := none, call_result := CallOutcome.raised ("boom") }

/-! ### Helper lemmas about the Durable Log model -/

theorem mkRecords_length (inps : List MsgInput) (c : Nat) :
    (mkRecords inps c).length = inps.length := by
  induction inps generalizing c with
  | nil => rfl
  | cons i rest ih => simp [mkRecords, ih]

theorem mem_mkRecords_le (inps : List MsgInput) (c : Nat) (e : SmsDoc)
    (h : e ∈ mkRecords inps c) : c ≤ e.timestamp := by
  induction inps generalizing c with
  | nil => cases h
  | cons i rest ih =>
    rcases List.mem_cons.mp h with h | h
    · simp [h, recordOf]
    · have := ih (c + 1) h
      omega

theorem insertDesc_append (d : SmsDoc) (m : List SmsDoc)
    (h : ∀ e ∈ m, d.timestamp < e.timestamp) : insertDesc d m = m ++ [d] := by
  induction m with
  | nil => rfl
  | cons e es ih =>
    have h1 : d.timestamp < e.timestamp := h e (List.mem_cons_self e es)
    unfold insertDesc
    rw [if_neg (by omega)]
    rw [ih (fun x hx => h x (List.mem_cons_of_mem e hx))]
    simp

theorem sortTsDesc_mkRecords (inps : List MsgInput) (c : Nat) :
    sortTsDesc (mkRecords inps c) = (mkRecords inps c).reverse := by
  induction inps generalizing c with
  | nil => rfl
  | cons i rest ih =>
    show insertDesc (recordOf i c) (sortTsDesc (mkRecords rest (c + 1)))
      = (recordOf i c :: mkRecords rest (c + 1)).reverse
    rw [ih (c + 1)]
    rw [insertDesc_append]
    · simp
    · intro e he
      have := mem_mkRecords_le rest (c + 1) e (List.mem_reverse.mp he)
      simp only [recordOf]
      omega

theorem admit_sequence_eq (inps : List MsgInput) (st : MongoState) :
    admit_sequence inps st
      = { docs := st.docs ++ mkRecords inps st.clock, clock := st.clock + inps.length } := by
  induction inps generalizing st with
  | nil => simp [admit_sequence, mkRecords]
  | cons i rest ih =>
    have hstep : (process_message_if_queue_empty goodEnv i st SMS_QUEUE_NAME).state
        = { docs := st.docs ++ [recordOf i st.clock], clock := st.clock + 1 } := rfl
    show admit_sequence rest (process_message_if_queue_empty goodEnv i st SMS_QUEUE_NAME).state = _
    rw [hstep, ih]
    simp [mkRecords]
    omega

/-! ### Claim theorems -/

/-- C1: the claim states that after every deferred dispatch run the
Admission Queue purge executes and the depth returns to 0 even when the
Twilio `client.messages.create` call fails.  The code contradicts this: on
the run below the primary send raises, the outer handler catches the error
before the purge statement is reached, and a queue of depth 1 stays at
depth 1 with no purge attempt in the trace. -/
theorem c1_responder_failure_skips_purge :
    (send_delayed_message c1_env ("F") ("T") ("B") 1).1 = 1
    ∧ ((send_delayed_message c1_env ("F") ("T") ("B") 1).2.filter isPurgeEvent) = [] :=
  ⟨rfl, rfl⟩

/-- C2 counterexample: the deferred runs armed for the decisions
`delay = "2 hours"` and `delay = "1 month"` are identical and both wait the
constant 45 seconds, so the wait time cannot equal the extracted delay. -/
theorem c2_counterexample :
    sleepsOf (deferral_scheduled_task ("2 hours") c2_env ("F") ("T") ("B") 1).2 = [45]
    ∧ sleepsOf (deferral_scheduled_task ("1 month") c2_env ("F") ("T") ("B") 1).2 = [45]
    ∧ deferral_scheduled_task ("2 hours") c2_env ("F") ("T") ("B") 1
        = deferral_scheduled_task ("1 month") c2_env ("F") ("T") ("B") 1 :=
  ⟨rfl, rfl, rfl⟩

/-- C2 (amended): every scheduled deferred dispatch invokes the Responder
exactly once after a fixed 45-second wait; the run does not depend on the
Decision's delay value, which is only consulted by the guard and never
passed to the task. -/
theorem c2_wait_is_constant_45 (d₁ d₂ : String) (env : DelayedEnv)
    (f t b : String) (dep : Nat) :
    deferral_scheduled_task d₁ env f t b dep = deferral_scheduled_task d₂ env f t b dep
    ∧ sleepsOf (deferral_scheduled_task d₁ env f t b dep).2 = [45]
    ∧ primarySendCount (deferral_scheduled_task d₁ env f t b dep).2 = 1 := by
  refine ⟨rfl, ?_, ?_⟩ <;>
  · unfold deferral_scheduled_task send_delayed_message
    cases hs : env.send_raises <;> cases hp : env.purge_ok <;>
      simp [sleepsOf, primarySendCount, hs, hp]

/-- C3 counterexample: two successful admissions from an empty log, of
`msgA` then `msgB`; the full read returns the records newest first, not in
insertion order. -/
theorem c3_counterexample :
    get_all_messages (admit_sequence [msgA, msgB] mongoEmpty)
      = [recordOf msgB 1, recordOf msgA 0]
    ∧ get_all_messages (admit_sequence [msgA, msgB] mongoEmpty)
      ≠ [recordOf msgA 0, recordOf msgB 1] := by
  exact ⟨rfl, by decide⟩

/-- C3 (amended): after N successful `Claimed` admissions starting from an
empty log, the Durable Log count is N and the full read returns exactly the
N inserted records in reverse insertion order (newest first), because
`get_all_messages` sorts on the timestamp descending. -/
theorem c3_log_count_and_read_order (inps : List MsgInput) :
    get_message_count (admit_sequence inps mongoEmpty) = inps.length
    ∧ get_all_messages (admit_sequence inps mongoEmpty) = (mkRecords inps 0).reverse := by
  rw [admit_sequence_eq]
  constructor
  · simp [get_message_count, mongoEmpty, mkRecords_length]
  · simp only [get_all_messages, mongoEmpty, List.nil_append]
    exact sortTsDesc_mkRecords inps 0

/-- C4 counterexample: on `c4_input` the whole text is valid JSON with
`delay = "1"`, but the code's extraction answers `delay = "2"`, because the
fragment regex fires first (capturing an unbalanced prefix whose parse
fails, diverting to the labeled scan); the spec-stated order (whole parse
first) would return the full object.  Hence the tiers are not tried in the
claimed order. -/
theorem c4_counterexample :
    delay_value_of (extract_delay c4_input) = some ("2")
    ∧ delay_value_of (extract_delay_specOrder c4_input) = some ("1")
    ∧ extract_delay c4_input ≠ extract_delay_specOrder c4_input :=
  ⟨rfl, rfl, fun h => absurd (congrArg delay_value_of h) (by decide)⟩

/-- C4 (amended): `extract_delay` tries the fragment search FIRST: whenever
the smallest-fragment regex matches and its capture parses, that value is
returned; the strict parse of the entire output is attempted only when no
fragment is found; and when the attempted parse fails the permissive
labeled-value scan supplies the decision. -/
theorem c4_fragment_tier_first (t : String) :
    (∀ f v, fragSearch t.data = some f → json_loads (String.mk f) = some v →
      extract_delay t = v)
    ∧ (∀ v, fragSearch t.data = none → json_loads t = some v → extract_delay t = v)
    ∧ (∀ f, fragSearch t.data = some f → json_loads (String.mk f) = none →
      extract_delay t = labeled_fallback t)
    ∧ (fragSearch t.data = none → json_loads t = none →
      extract_delay t = labeled_fallback t) := by
  refine ⟨?_, ?_, ?_, ?_⟩
  · intro f v hf hv
    simp only [extract_delay, hf, hv]
  · intro v hf hv
    simp only [extract_delay, hf, hv]
  · intro f hf hv
    simp only [extract_delay, hf, hv]
  · intro hf hv
    simp only [extract_delay, hf, hv]

/-- C4 witness: concrete run of the amended theorem's first tier. -/
theorem c4_witness :
    extract_delay c4_witness_input = Json.obj [("delay", Json.str ("5"))] :=
  (c4_fragment_tier_first c4_witness_input).1
    (("\x7b\"delay\": \"5\"\x7d").data) (Json.obj [("delay", Json.str ("5"))]) rfl rfl

/-- C5: `process_message_if_queue_empty` appends exactly one record to the
Durable Log when it returns `success` and leaves the log unchanged on every
other outcome; a non-empty or failed queue-depth check never touches the
log; a failed store connection on the claim path yields `error` with the
log unchanged; and no call path publishes to or purges the Admission Queue
(only declare/depth operations are issued). -/
theorem c5_insert_effects (env : ProcEnv) (inp : MsgInput) (st : MongoState) (q : String) :
    ((process_message_if_queue_empty env inp st q).result.status = "success" →
      (process_message_if_queue_empty env inp st q).state.docs
        = st.docs ++ [recordOf inp st.clock])
    ∧ ((process_message_if_queue_empty env inp st q).result.status ≠ "success" →
      (process_message_if_queue_empty env inp st q).state = st)
    ∧ (env.is_empty = some false →
      (process_message_if_queue_empty env inp st q).result.status = "skipped"
      ∧ (process_message_if_queue_empty env inp st q).state = st)
    ∧ (env.is_empty = none →
      (process_message_if_queue_empty env inp st q).result.status = "error"
      ∧ (process_message_if_queue_empty env inp st q).state = st)
    ∧ (env.is_empty = some true → env.mongo_connect = false →
      (process_message_if_queue_empty env inp st q).result.status = "error"
      ∧ (process_message_if_queue_empty env inp st q).result.message
          = "Failed to connect to MongoDB"
      ∧ (process_message_if_queue_empty env inp st q).state = st)
    ∧ (∀ op ∈ (process_message_if_queue_empty env inp st q).qops,
        op = QOp.declareQueue ∨ op = QOp.depthQuery) := by
  rcases env with ⟨ie, qc, mc, ins, rf, cf⟩
  rcases ie with _ | b
  · simp [process_message_if_queue_empty]
  · cases b
    · simp [process_message_if_queue_empty]
    · cases mc
      · simp [process_message_if_queue_empty]
      · cases ins
        · simp [process_message_if_queue_empty]
        · simp [process_message_if_queue_empty, insert_sms_message, recordOf]

/-- C5 witness: concrete runs of the theorem on a healthy claim, a skip,
and a failed store connection. -/
theorem c5_witness :
    (process_message_if_queue_empty goodEnv msgA mongoEmpty SMS_QUEUE_NAME).state.docs
      = ([] : List SmsDoc) ++ [recordOf msgA 0]
    ∧ (process_message_if_queue_empty skipEnv msgA mongoEmpty SMS_QUEUE_NAME).state
      = mongoEmpty
    ∧ (process_message_if_queue_empty failConnectEnv msgA mongoEmpty SMS_QUEUE_NAME).result.status
      = "error" :=
  ⟨(c5_insert_effects goodEnv msgA mongoEmpty SMS_QUEUE_NAME).1 rfl,
   ((c5_insert_effects skipEnv msgA mongoEmpty SMS_QUEUE_NAME).2.2.1 rfl).2,
   ((c5_insert_effects failConnectEnv msgA mongoEmpty SMS_QUEUE_NAME).2.2.2.2.1 rfl rfl).1⟩

/-- C6: when the Decision carries a delay that is neither `"0"` nor blank,
the success branch of `handle_message` issues the queue publish strictly
before arming the deferred-dispatch timer; when the delay is `"0"` or
blank, it neither publishes nor arms any timer. -/
theorem c6_publish_before_arm (env : HandleEnv) (d : String) :
    (d ≠ "0" → pyStrip d ≠ "" →
      handle_success_branch env (Json.obj [("delay", Json.str d)])
        = [HEvent.publishAttempt env.publish_ok, HEvent.armTimer])
    ∧ (d = "0" ∨ pyStrip d = "" →
      (∀ b, HEvent.publishAttempt b ∉ handle_success_branch env (Json.obj [("delay", Json.str d)]))
      ∧ HEvent.armTimer ∉ handle_success_branch env (Json.obj [("delay", Json.str d)])) := by
  have hdv : delay_value_of (Json.obj [("delay", Json.str d)]) = some d := rfl
  constructor
  · intro h1 h2
    simp only [handle_success_branch, hdv]
    rw [if_pos ⟨h1, h2⟩]
  · intro h
    have hcond : ¬ (d ≠ "0" ∧ pyStrip d ≠ "") := by
      rcases h with h | h
      · exact fun hc => hc.1 h
      · exact fun hc => hc.2 h
    simp only [handle_success_branch, hdv]
    rw [if_neg hcond]
    refine ⟨fun b => ?_, ?_⟩ <;> simp

/-- C6 witness: concrete runs on delay `"2 hours"` (publish then arm) and
delay `"0"` (no timer armed). -/
theorem c6_witness :
    handle_success_branch hEnv (Json.obj [("delay", Json.str ("2 hours"))])
      = [HEvent.publishAttempt true, HEvent.armTimer]
    ∧ HEvent.armTimer ∉ handle_success_branch hEnv (Json.obj [("delay", Json.str ("0"))]) :=
  ⟨(c6_publish_before_arm hEnv ("2 hours")).1 (by decide) (by decide),
   ((c6_publish_before_arm hEnv ("0")).2 (Or.inl rfl)).2⟩

/-- C7: whenever every extraction tier fails — any matched fragment does
not parse, the whole text does not parse, and the labeled-value scan finds
nothing — `extract_delay` returns the default decision `{"delay": "0"}`. -/
theorem c7_default_on_all_tier_failure (t : String)
    (h1 : ∀ f, fragSearch t.data = some f → json_loads (String.mk f) = none)
    (h2 : json_loads t = none)
    (h3 : labeledScan t.data = none) :
    extract_delay t = Json.obj [("delay", Json.str ("0"))] := by
  cases hf : fragSearch t.data with
  | none =>
    simp only [extract_delay, hf, h2, labeled_fallback, h3]
    cases hc : containsSub (pyLower t).data ('d' :: 'e' :: 'l' :: 'a' :: 'y' :: []) <;> simp
  | some f =>
    simp only [extract_delay, hf, h1 f hf, labeled_fallback, h3]
    cases hc : containsSub (pyLower t).data ('d' :: 'e' :: 'l' :: 'a' :: 'y' :: []) <;> simp

/-- C7 witness: the empty Analyzer output defaults to `{"delay": "0"}`. -/
theorem c7_witness :
    extract_delay ("") = Json.obj [("delay", Json.str ("0"))] :=
  c7_default_on_all_tier_failure ("")
    (fun f hf => by
      rw [show fragSearch (("") : String).data = none from rfl] at hf
      exact Option.noConfusion hf)
    rfl rfl

/-- C8: for every combination of collaborator outcomes,
`process_message_if_queue_empty` returns a result dictionary whose status
is `"success"`, `"skipped"` or `"error"`; no path escapes by raising. -/
theorem c8_status_classified (env : ProcEnv) (inp : MsgInput) (st : MongoState) (q : String) :
    (process_message_if_queue_empty env inp st q).result.status = "success"
    ∨ (process_message_if_queue_empty env inp st q).result.status = "skipped"
    ∨ (process_message_if_queue_empty env inp st q).result.status = "error" := by
  rcases env with ⟨ie, qc, mc, ins, rf, cf⟩
  rcases ie with _ | b
  · right; right; rfl
  · cases b
    · right; left; rfl
    · cases mc
      · right; right; rfl
      · cases ins
        · right; right; rfl
        · left; rfl

/-- C9: on the skip path the reported depth comes from a second,
independent `get_queue_message_count` query issued after the emptiness
check: the `skipped` result is returned whatever that query yields, with
its value (including `None` on failure, rendered as the string `None`)
embedded in the message, and the queue-operation trace shows the two
separate depth reads. -/
theorem c9_skip_reports_second_query (env : ProcEnv) (inp : MsgInput)
    (st : MongoState) (q : String) (h : env.is_empty = some false) :
    (process_message_if_queue_empty env inp st q).result.status = "skipped"
    ∧ (process_message_if_queue_empty env inp st q).result.message
        = "Queue \x27" ++ q ++ "\x27 is not empty. Contains " ++ pyShowOptNat env.queue_count
          ++ " messages. Message not processed."
    ∧ (process_message_if_queue_empty env inp st q).state = st
    ∧ (process_message_if_queue_empty env inp st q).qops
        = [QOp.declareQueue, QOp.depthQuery, QOp.declareQueue, QOp.depthQuery] := by
  unfold process_message_if_queue_empty
  rw [h]
  exact ⟨rfl, rfl, rfl, rfl⟩

/-- C9 witness: the second depth query fails (`None`) while the gate saw a
non-empty queue; the `skipped` result still comes back, with `None`
embedded as the reported count. -/
theorem c9_witness :
    (process_message_if_queue_empty c9_env msgA mongoEmpty SMS_QUEUE_NAME).result.status
      = "skipped"
    ∧ (process_message_if_queue_empty c9_env msgA mongoEmpty SMS_QUEUE_NAME).result.message
      = "Queue \x27pigeon_queue\x27 is not empty. Contains None messages. Message not processed." := by
  have h := c9_skip_reports_second_query c9_env msgA mongoEmpty SMS_QUEUE_NAME rfl
  exact ⟨h.1, h.2.1.trans (by decide)⟩

/-- C10 counterexample: with the API key present and the model call
succeeding with whitespace-only content, `get_grok_response` returns the
empty string, contradicting the claim that every outcome yields a
non-empty reply. -/
theorem c10_counterexample :
    get_grok_response c10_env_ws ("status?") = "" :=
  rfl

/-- C10 (amended): `get_grok_response` is total and never raises: a missing
or empty API key yields the fixed configuration apology, a raised call or a
`None` content yields the fixed failure apology, and a successful call
yields the stripped content — which is empty exactly when the model
returned whitespace-only content. -/
theorem c10_grok_totality (env : GrokEnv) (m : String) :
    (pyTruthyKey env.api_key = false → get_grok_response env m = grok_config_error_msg)
    ∧ (∀ e, env.call_result = CallOutcome.raised e → pyTruthyKey env.api_key = true →
        get_grok_response env m = grok_failure_msg)
    ∧ (env.call_result = CallOutcome.ok none → pyTruthyKey env.api_key = true →
        get_grok_response env m = grok_failure_msg)
    ∧ (∀ c, env.call_result = CallOutcome.ok (some c) → pyTruthyKey env.api_key = true →
        get_grok_response env m = pyStrip c)
    ∧ (get_grok_response env m = "" →
        ∃ c, env.call_result = CallOutcome.ok (some c) ∧ pyStrip c = "") := by
  refine ⟨?_, ?_, ?_, ?_, ?_⟩
  · intro hk
    simp only [get_grok_response, hk]
    rfl
  · intro e he hk
    simp only [get_grok_response, hk, he]
    rfl
  · intro he hk
    simp only [get_grok_response, hk, he]
    rfl
  · intro c hc hk
    simp only [get_grok_response, hk, hc]
    rfl
  · intro hres
    cases hk : pyTruthyKey env.api_key with
    | false =>
      have heq : get_grok_response env m = grok_config_error_msg := by
        simp only [get_grok_response, hk]
        rfl
      rw [heq] at hres
      exact absurd hres (by decide)
    | true =>
      cases hc : env.call_result with
      | raised e =>
        have heq : get_grok_response env m = grok_failure_msg := by
          simp only [get_grok_response, hk, hc]
          rfl
        rw [heq] at hres
        exact absurd hres (by decide)
      | ok content =>
        cases content with
        | none =>
          have heq : get_grok_response env m = grok_failure_msg := by
            simp only [get_grok_response, hk, hc]
            rfl
          rw [heq] at hres
          exact absurd hres (by decide)
        | some c =>
          have heq : get_grok_response env m = pyStrip c := by
            simp only [get_grok_response, hk, hc]
            rfl
          rw [heq] at hres
          exact ⟨c, rfl, hres⟩

/-- C10 witness: concrete run of the amended theorem on the missing-key
environment. -/
theorem c10_witness :
    get_grok_response c10_env_missing ("hello") = grok_config_error_msg :=
  (c10_grok_totality c10_env_missing ("hello")).1 rfl

end Pigeon
